import Mathlib

/-!
Verification of the japan-reit frontend against its specification.

The development shallowly embeds the relevant TypeScript source files:

* `pages/ScrapingAdmin.tsx` — job trigger form, scheduler controls, job
  history table (status badge, filters, counter cells, error cell);
* `pages/Dashboard.tsx` — the operator health display (recent-jobs query,
  Last Scrape line, running indicator, property count);
* `lib/japanese-format.ts` — `formatManYen`, `getScoreColor`,
  `getScoreBgColor`;
* `components/map/PropertyPopup.tsx` — `formatPrice`, `scoreBadge`,
  `rebuildLabel`, `escapeHtml`, `createPopupHTML`;
* `pages/PropertyDetail.tsx` — the `ScoreBar` colour selection.

JavaScript strings are Lean `String`s, nullable values are `Option`s, and
JS numbers are embedded as `Nat`/`Int`/`ℚ` with exact arithmetic at the
points where the code only compares, divides by powers of ten, or rounds
to one decimal (the concrete values reaching these functions are yen
integers and scores, for which double arithmetic is exact or agrees with
the rational rounding modelled here).
-/

namespace JapanReit

/-- Frontend model of one scraping job: the `ScrapeJob` interface of
`api/types` (fields id, source_id, status, prefecture_code,
municipality_code, listings_found, listings_new, listings_updated,
error_message, started_at, completed_at, created_at).  Note the interface
carries exactly three listing counters.  Timestamps stay as the ISO strings
the API returns. -/
structure ScrapeJob where
  id : String
  source_id : String
  status : String
  prefecture_code : Option String
  municipality_code : Option String
  listings_found : Int
  listings_new : Int
  listings_updated : Int
  error_message : Option String
  started_at : Option String
  completed_at : Option String
  created_at : Option String
deriving DecidableEq

/-- Frontend model of a scraping source: the `ScrapeSource` interface of
`api/types`. -/
structure ScrapeSource where
  id : String
  display_name : String
  base_url : Option String
  is_enabled : Bool
  default_interval_hours : Nat
deriving DecidableEq

/-! ## Dashboard health display (`pages/Dashboard.tsx`) -/

/-- Dashboard: the recent-jobs query URL (`api.get('/scraping/jobs?limit=5')`),
so all derived health stats below read at most the 5 most recent jobs. -/
def dashboardJobsQueryUrl : String := "/scraping/jobs?limit=5"

/-- Dashboard: `recentJobs?.filter(j => j.status === 'running').length ?? 0`. -/
def runningSources (recentJobs : List ScrapeJob) : Nat :=
  (recentJobs.filter (fun j => j.status == "running")).length

/-- Dashboard: `hasRunningJobs = runningSources > 0`. -/
def hasRunningJobs (recentJobs : List ScrapeJob) : Bool :=
  decide (0 < runningSources recentJobs)

/-- Dashboard: `recentJobs?.find(j => j.status === 'completed')`. -/
def lastCompletedJob (recentJobs : List ScrapeJob) : Option ScrapeJob :=
  recentJobs.find? (fun j => j.status == "completed")

/-- What the Last Scrape line of the System Status panel displays:
`'Running now'`, the `timeAgo` rendering of a completion timestamp, or
`'Never'`. -/
inductive LastScrapeText where
  | runningNow : LastScrapeText
  | ago : String → LastScrapeText
  | never : LastScrapeText
deriving DecidableEq

/-- Dashboard Last Scrape line:
`hasRunningJobs ? 'Running now' : lastCompletedJob?.completed_at ?
timeAgo(lastCompletedJob.completed_at) : 'Never'`.  The JS truthiness test
on the timestamp makes an empty string fall through to `'Never'`. -/
def lastScrapeText (recentJobs : List ScrapeJob) : LastScrapeText :=
  if hasRunningJobs recentJobs then .runningNow
  else
    match lastCompletedJob recentJobs with
    | some j =>
      match j.completed_at with
      | some ts => if ts = "" then .never else .ago ts
      | none => .never
    | none => .never

/-- Dashboard Database line / Total Properties card:
`properties?.total ?? '-'` rendered as text. -/
def totalPropertiesValue (total : Option Nat) : String :=
  match total with
  | some t => toString t
  | none => "-"

/-! ## Scraping admin page (`pages/ScrapingAdmin.tsx`) -/

/-- The `styles` record of `StatusBadge`, one entry per job state. -/
def statusStyles : List (String × String) :=
  [("pending", "bg-gray-100 text-gray-700"),
   ("running", "bg-blue-100 text-blue-700 animate-pulse"),
   ("completed", "bg-green-100 text-green-800"),
   ("failed", "bg-red-100 text-red-800")]

/-- Own property names of `Object.prototype`, which a plain object literal
inherits: indexing `styles[status]` with one of these names yields the
inherited member (a function, or `Object.prototype` itself for
`__proto__`), which is not nullish. -/
def protoProps : List String :=
  ["constructor", "hasOwnProperty", "isPrototypeOf", "propertyIsEnumerable",
   "toLocaleString", "toString", "valueOf", "__proto__",
   "__defineGetter__", "__defineSetter__", "__lookupGetter__",
   "__lookupSetter__"]

/-- What the badge class string holds: either one of the style strings of
the `styles` record (or the neutral fallback), or the host stringification
of a member inherited from `Object.prototype` — the class string the code
produces for such a status contains the stringified function or object,
never a style. -/
inductive BadgeClass where
  | style : String → BadgeClass
  | inheritedJunk : String → BadgeClass
deriving DecidableEq, BEq

/-- `StatusBadge`: `styles[status] ?? 'bg-gray-100 text-gray-700'` — the
status-dependent part of the badge class string.  `styles` is a plain
object literal, so the index operation walks the prototype chain: an own
property yields its style string; a property of `Object.prototype` yields
the inherited member, which is not nullish, so `??` does not fall back and
the member's stringification lands in the class string; only a genuinely
absent property is `undefined` and produces the neutral fallback. -/
def statusBadgeClass (status : String) : BadgeClass :=
  match statusStyles.lookup status with
  | some v => BadgeClass.style v
  | none =>
    if protoProps.contains status then BadgeClass.inheritedJunk status
    else BadgeClass.style "bg-gray-100 text-gray-700"

/-- Option values of the job status filter select, in DOM order; the empty
value is the `All statuses` choice. -/
def statusFilterOptions : List String :=
  ["", "pending", "running", "completed", "failed"]

/-- Header cells of the Recent Jobs table, in DOM order. -/
def jobsTableHeaders : List String :=
  ["Source", "Status", "Prefecture", "Found", "New", "Updated", "Started",
   "Duration", "Error"]

/-- Found column cell: `{j.listings_found}`. -/
def foundCell (j : ScrapeJob) : String := toString j.listings_found

/-- New column cell: `j.listings_new > 0 ? ` with a `+` mark. -/
def newCell (j : ScrapeJob) : String :=
  if 0 < j.listings_new then "+" ++ toString j.listings_new
  else toString j.listings_new

/-- Updated column cell: `j.listings_updated > 0 ? ` with a `~` mark. -/
def updatedCell (j : ScrapeJob) : String :=
  if 0 < j.listings_updated then "~" ++ toString j.listings_updated
  else toString j.listings_updated

/-- The three counter cells of one job row, in DOM order. -/
def jobCounterCells (j : ScrapeJob) : List String :=
  [foundCell j, newCell j, updatedCell j]

/-- Error column cell, `title` attribute:
`title={j.error_message ?? undefined}` (absent when the message is null). -/
def errorCellTitle (j : ScrapeJob) : Option String := j.error_message

/-- Error column cell, text content: `{j.error_message || '-'}` — JS
truthiness, so both a null and an empty message render as a dash. -/
def errorCellText (j : ScrapeJob) : String :=
  match j.error_message with
  | some m => if m = "" then "-" else m
  | none => "-"

/-- Body of the `createJob` mutation: `{ source_id, prefecture_code? }`. -/
structure CreateJobBody where
  source_id : String
  prefecture_code : Option String
deriving DecidableEq

/-- The Start Scrape button click handler: returns early when no source is
selected, otherwise posts
`{ source_id: selectedSource, ...(selectedPrefecture && { prefecture_code:
selectedPrefecture }) }` — the spread adds the prefecture exactly when one
is selected (JS truthiness of the select value, empty string when not). -/
def startScrapeClick (selectedSource selectedPrefecture : String) :
    Option CreateJobBody :=
  if selectedSource = "" then none
  else some
    { source_id := selectedSource,
      prefecture_code :=
        if selectedPrefecture = "" then none else some selectedPrefecture }

/-- Source select: `<option disabled={!s.is_enabled}>`. -/
def sourceOptionDisabled (s : ScrapeSource) : Bool := !s.is_enabled

/-- Query string of the job-history query:
`new URLSearchParams({ limit: '50' })`, then `set('status', ...)` when the
status filter is non-empty, then `set('source_id', ...)` when the source
filter is non-empty. -/
def jobsQueryParams (statusFilter sourceFilter : String) :
    List (String × String) :=
  [("limit", "50")]
    ++ (if statusFilter = "" then [] else [("status", statusFilter)])
    ++ (if sourceFilter = "" then [] else [("source_id", sourceFilter)])

/-- An `api.post(url, {})` call split into path and query-string pairs; both
scheduler mutations post an empty JSON body. -/
structure ApiPost where
  path : String
  query : List (String × String)
deriving DecidableEq

/-- `startScheduler` mutation:
`api.post('/scraping/scheduler/start?interval_hours=' + intervalHours, {})`.
The interval is the operator's number input (an integer between 1 and 168). -/
def startSchedulerRequest (intervalHours : Nat) : ApiPost :=
  { path := "/scraping/scheduler/start",
    query := [("interval_hours", toString intervalHours)] }

/-- `stopScheduler` mutation: `api.post('/scraping/scheduler/stop', {})` —
no query parameters. -/
def stopSchedulerRequest : ApiPost :=
  { path := "/scraping/scheduler/stop", query := [] }

/-! ## Number rendering

Models of the JS builtins used by the two man-yen formatters: default
number-to-string for a non-negative integer, and `toLocaleString` in a
locale that groups digits in threes with a comma (the behaviour of the
default `en`/`ja` locales the app runs in). -/

/-- Decimal digit to its character. -/
def digitChar (d : Nat) : Char := Char.ofNat (48 + d)

/-- Little-endian decimal digits, fuel-driven so the kernel can evaluate it. -/
def digitsAuxLE : Nat → Nat → List Nat
  | 0, _ => []
  | fuel + 1, n => if n < 10 then [n] else n % 10 :: digitsAuxLE fuel (n / 10)

/-- Little-endian decimal digits of a natural number. -/
def natDigitsLE (n : Nat) : List Nat := digitsAuxLE (n + 1) n

/-- JS default number-to-string for a non-negative integer (no grouping). -/
def jsNatRepr (n : Nat) : String :=
  String.mk ((natDigitsLE n).reverse.map digitChar)

/-- Zero padding of an inner three-digit group. -/
def pad3 (m : Nat) : String :=
  (if m < 10 then "00" else if m < 100 then "0" else "") ++ jsNatRepr m

/-- Fuel-driven comma grouping, threes from the right. -/
def jsNatGroupedAux : Nat → Nat → String
  | 0, n => jsNatRepr n
  | fuel + 1, n =>
    if n < 1000 then jsNatRepr n
    else jsNatGroupedAux fuel (n / 1000) ++ "," ++ pad3 (n % 1000)

/-- Model of `Number.prototype.toLocaleString()` for a non-negative integer
in a comma-grouping locale. -/
def jsNatGrouped (n : Nat) : String := jsNatGroupedAux n n

/-! ## The two man-yen formatters -/

/-- `formatManYen` from `lib/japanese-format.ts`:
`man = amount / 10000`; integral `man` renders as a plain interpolation
of the number, otherwise `man.toFixed(1)`.  Amounts are yen integers;
`Number.isInteger(amount / 10000)` is divisibility by 10000, and
`toFixed(1)` rounds the tenths half-up, i.e. to `(amount + 500) / 1000`. -/
def formatManYen (amount : Nat) : String :=
  if amount % 10000 = 0 then jsNatRepr (amount / 10000) ++ "万円"
  else
    jsNatRepr ((amount + 500) / 1000 / 10) ++ "." ++
      jsNatRepr ((amount + 500) / 1000 % 10) ++ "万円"

/-- `formatPrice` from `components/map/PropertyPopup.tsx`: `'-'` for null;
integral `man` renders via `man.toLocaleString()` (grouped), otherwise via
`man.toLocaleString(undefined, { maximumFractionDigits: 1 })`, which rounds
the tenths half-up, drops a zero fraction, and groups the integer part. -/
def formatPrice : Option Nat → String
  | none => "-"
  | some price =>
    if price % 10000 = 0 then jsNatGrouped (price / 10000) ++ "万円"
    else if (price + 500) / 1000 % 10 = 0 then
      jsNatGrouped ((price + 500) / 1000 / 10) ++ "万円"
    else
      jsNatGrouped ((price + 500) / 1000 / 10) ++ "." ++
        jsNatRepr ((price + 500) / 1000 % 10) ++ "万円"

/-! ## Score banding

Three independent implementations band the composite score at 70 and 40:
`getScoreColor`/`getScoreBgColor` in `lib/japanese-format.ts`, `scoreBadge`
in the map popup, and the `ScoreBar` colours on the property detail page.
Scores are JS numbers; comparisons against the integer thresholds are
embedded exactly over `ℚ`. -/

/-- `getScoreColor` from `lib/japanese-format.ts`. -/
def getScoreColor (score : Option ℚ) : String :=
  match score with
  | none => "text-muted-foreground"
  | some s =>
    if s ≥ 70 then "text-green-600"
    else if s ≥ 40 then "text-yellow-600"
    else "text-red-600"

/-- `getScoreBgColor` from `lib/japanese-format.ts`. -/
def getScoreBgColor (score : Option ℚ) : String :=
  match score with
  | none => "bg-muted"
  | some s =>
    if s ≥ 70 then "bg-green-100 text-green-800"
    else if s ≥ 40 then "bg-yellow-100 text-yellow-800"
    else "bg-red-100 text-red-800"

/-- `barColor` of `ScoreBar` in `pages/PropertyDetail.tsx`. -/
def scoreBarColor (value : Option ℚ) : String :=
  match value with
  | none => "bg-muted"
  | some v =>
    if v ≥ 70 then "bg-green-500"
    else if v ≥ 40 then "bg-yellow-500"
    else "bg-red-500"

/-- `textColor` of `ScoreBar` in `pages/PropertyDetail.tsx`. -/
def scoreBarTextColor (value : Option ℚ) : String :=
  match value with
  | none => "text-muted-foreground"
  | some v =>
    if v ≥ 70 then "text-green-700"
    else if v ≥ 40 then "text-yellow-700"
    else "text-red-700"

/-! ## Model of JS number printing for scores and areas -/

/-- Fractional decimal digits of a rational in `[0, 1)`, fuel-driven. -/
def fracDigitsAux : Nat → ℚ → List Char
  | 0, _ => []
  | fuel + 1, q =>
    if q = 0 then []
    else
      digitChar (Int.floor (q * 10)).toNat ::
        fracDigitsAux fuel (q * 10 - Int.floor (q * 10))

/-- Model of JS default number printing, exact for numbers whose decimal
expansion terminates within 17 digits — which covers every score value the
API produces. -/
def jsNumRepr (q : ℚ) : String :=
  (if q < 0 then "-" else "") ++
    jsNatRepr (Int.floor (if q < 0 then -q else q)).toNat ++
    (if (if q < 0 then -q else q) - Int.floor (if q < 0 then -q else q) = 0
     then ""
     else "." ++ String.mk
       (fracDigitsAux 17
         ((if q < 0 then -q else q) -
           Int.floor (if q < 0 then -q else q))))

/-- Model of `Number.prototype.toFixed(1)`: round to tenths, ties toward
plus infinity (ECMA picks the larger candidate), always one fraction
digit. -/
def toFixed1Q (q : ℚ) : String :=
  (if Int.floor (q * 10 + 1 / 2) < 0 then "-" else "") ++
    jsNatRepr ((Int.floor (q * 10 + 1 / 2)).natAbs / 10) ++ "." ++
    jsNatRepr ((Int.floor (q * 10 + 1 / 2)).natAbs % 10)

/-! ## The map popup (`components/map/PropertyPopup.tsx`) -/

/-- The double-quote character (code 34). -/
def quoteChar : Char := Char.ofNat 34

/-- The apostrophe character (code 39). -/
def aposChar : Char := Char.ofNat 39

/-- `String.prototype.replace` with a global single-character pattern:
every occurrence of `pat` becomes `rep`. -/
def replaceAllChar (pat : Char) (rep : List Char) : List Char → List Char
  | [] => []
  | c :: cs =>
    if c = pat then rep ++ replaceAllChar pat rep cs
    else c :: replaceAllChar pat rep cs

/-- `escapeHtml` from `PropertyPopup.tsx`: the five chained global
replaces, applied in source order — `&` first, then `<`, `>`, the double
quote, and the apostrophe (replacement `&#039;`). -/
def escapeHtmlData (l : List Char) : List Char :=
  replaceAllChar aposChar "&#039;".data
    (replaceAllChar quoteChar "&quot;".data
      (replaceAllChar '>' "&gt;".data
        (replaceAllChar '<' "&lt;".data
          (replaceAllChar '&' "&amp;".data l))))

/-- `escapeHtml` on Lean strings. -/
def escapeHtml (text : String) : String := String.mk (escapeHtmlData text.data)

/-- The specification reading of `escapeHtml`: each of the five special
characters is replaced by its HTML entity, all other characters pass
through. -/
def htmlEscapeChar (c : Char) : List Char :=
  if c = '&' then "&amp;".data
  else if c = '<' then "&lt;".data
  else if c = '>' then "&gt;".data
  else if c = quoteChar then "&quot;".data
  else if c = aposChar then "&#039;".data
  else [c]

/-- Character-at-a-time HTML escaping (the specification reading). -/
def escapeHtmlCharwise (s : String) : String :=
  String.mk (s.data.flatMap htmlEscapeChar)

/-- Characters `encodeURIComponent` leaves as-is: ASCII alphanumerics and
`- _ . ! ~ * ' ( )`. -/
def uriUnreservedChar (c : Char) : Bool :=
  c.isAlpha || c.isDigit ||
    ['-', '_', '.', '!', '~', '*', aposChar, '(', ')'].contains c

/-- UTF-8 bytes of a code point. -/
def utf8BytesOfCode (n : Nat) : List Nat :=
  if n < 128 then [n]
  else if n < 2048 then [192 + n / 64, 128 + n % 64]
  else if n < 65536 then [224 + n / 4096, 128 + n / 64 % 64, 128 + n % 64]
  else [240 + n / 262144, 128 + n / 4096 % 64, 128 + n / 64 % 64,
        128 + n % 64]

/-- Upper-case hex digit. -/
def hexDigitUpper (n : Nat) : Char :=
  if n < 10 then Char.ofNat (48 + n) else Char.ofNat (55 + n)

/-- Percent-encoding of one byte. -/
def pctEncodeByte (b : Nat) : List Char :=
  ['%', hexDigitUpper (b / 16), hexDigitUpper (b % 16)]

/-- Model of the ECMAScript `encodeURIComponent` builtin: unreserved
characters pass through, every other character is percent-encoded
byte-by-byte in UTF-8. -/
def encodeURIComponent (s : String) : String :=
  String.mk (s.data.flatMap (fun c =>
    if uriUnreservedChar c then [c]
    else (utf8BytesOfCode c.toNat).flatMap pctEncodeByte))

/-- The feature properties handed to `createPopupHTML` (the
`PopupProperties` interface).  Prices are yen integers, scores and areas
JS numbers embedded as rationals, years integers. -/
structure PopupProperties where
  id : String
  price : Option Nat
  address : String
  score : Option ℚ
  floor_plan : Option String
  land_area : Option ℚ
  year_built : Option Int
  rebuild_possible : Option Bool
deriving DecidableEq

/-- The `N/A` badge returned by `scoreBadge` for a null score. -/
def badgeNeutralHtml : String :=
  "<span style=\"display:inline-block;padding:2px 8px;border-radius:9999px;font-size:11px;background:#e5e7eb;color:#6b7280;\">N/A</span>"

/-- The coloured badge template of `scoreBadge` (source line 40), with the
background, foreground and score text spliced in. -/
def badgeSpanHtml (bg fg text : String) : String :=
  "<span style=\"display:inline-block;padding:2px 8px;border-radius:9999px;font-size:11px;font-weight:600;background:" ++
    bg ++ ";color:" ++ fg ++ ";\">" ++ text ++ "</span>"

/-- `scoreBadge` from `PropertyPopup.tsx`: the `N/A` badge for null,
otherwise background/foreground chosen by the 70/40 thresholds. -/
def scoreBadge (score : Option ℚ) : String :=
  match score with
  | none => badgeNeutralHtml
  | some s =>
    if s ≥ 70 then badgeSpanHtml "#dcfce7" "#166534" (jsNumRepr s)
    else if s ≥ 40 then badgeSpanHtml "#fef9c3" "#854d0e" (jsNumRepr s)
    else badgeSpanHtml "#fee2e2" "#991b1b" (jsNumRepr s)

/-- `rebuildLabel` from `PropertyPopup.tsx`. -/
def rebuildLabel (rebuild : Option Bool) : String :=
  match rebuild with
  | none => "<span style=\"color:#6b7280;\">?</span>"
  | some true => "<span style=\"color:#16a34a;font-weight:600;\">OK</span>"
  | some false => "<span style=\"color:#dc2626;font-weight:600;\">NG</span>"

/-- `tableRow` from `PropertyPopup.tsx` (template literal, newlines and
indentation included). -/
def tableRow (label : String) (value : String) : String :=
  "<tr>\n    <td style=\"padding:2px 8px 2px 0;color:#6b7280;white-space:nowrap;\">" ++
    label ++
    "</td>\n    <td style=\"padding:2px 0;font-weight:500;color:#111827;\">" ++
    value ++ "</td>\n  </tr>"

/-- `createPopupHTML` from `PropertyPopup.tsx`: the `rows.push(...)`
sequence joined with the empty string.  The floor plan row is guarded by JS
truthiness (absent or empty string means no row), the land area and year
rows by strict null tests. -/
def createPopupHTML (properties : PopupProperties) : String :=
  "<div style=\"font-family:system-ui,-apple-system,sans-serif;min-width:220px;max-width:300px;font-size:13px;line-height:1.5;\">" ++
  ("<div style=\"font-weight:700;font-size:14px;margin-bottom:6px;color:#111827;\">" ++
    escapeHtml properties.address ++ "</div>") ++
  "<div style=\"display:flex;align-items:center;gap:8px;margin-bottom:6px;\">" ++
  ("<span style=\"font-size:15px;font-weight:700;color:#7c3aed;\">" ++
    formatPrice properties.price ++ "</span>") ++
  scoreBadge properties.score ++
  "</div>" ++
  "<table style=\"width:100%;border-collapse:collapse;margin-bottom:8px;\">" ++
  (match properties.floor_plan with
   | some fp => if fp = "" then "" else tableRow "Floor Plan" (escapeHtml fp)
   | none => "") ++
  (match properties.land_area with
   | some la => tableRow "Land Area" (toFixed1Q la ++ "m&sup2;")
   | none => "") ++
  (match properties.year_built with
   | some yb => tableRow "Year Built" (toString yb)
   | none => "") ++
  tableRow "Rebuild" (rebuildLabel properties.rebuild_possible) ++
  "</table>" ++
  ("<a href=\"/property/" ++ encodeURIComponent properties.id ++
    "\" style=\"display:inline-block;margin-top:4px;font-size:12px;color:#2563eb;text-decoration:none;font-weight:500;\">View details &rarr;</a>") ++
  "</div>"

/-- The popup template applied to already-sanitised fragments: the address
and floor plan arrive HTML-escaped character by character (the floor plan
is `none` when absent or empty), the property id arrives URI-encoded.
Stating `createPopupHTML = popupAssembled` over these fragments is the
claim that listing text never reaches the markup raw. -/
def popupAssembled (addrEsc : String) (price : Option Nat) (score : Option ℚ)
    (fpRow : Option String) (la : Option ℚ) (yb : Option Int)
    (rb : Option Bool) (idEnc : String) : String :=
  "<div style=\"font-family:system-ui,-apple-system,sans-serif;min-width:220px;max-width:300px;font-size:13px;line-height:1.5;\">" ++
  ("<div style=\"font-weight:700;font-size:14px;margin-bottom:6px;color:#111827;\">" ++
    addrEsc ++ "</div>") ++
  "<div style=\"display:flex;align-items:center;gap:8px;margin-bottom:6px;\">" ++
  ("<span style=\"font-size:15px;font-weight:700;color:#7c3aed;\">" ++
    formatPrice price ++ "</span>") ++
  scoreBadge score ++
  "</div>" ++
  "<table style=\"width:100%;border-collapse:collapse;margin-bottom:8px;\">" ++
  (match fpRow with
   | some fpEsc => tableRow "Floor Plan" fpEsc
   | none => "") ++
  (match la with
   | some la => tableRow "Land Area" (toFixed1Q la ++ "m&sup2;")
   | none => "") ++
  (match yb with
   | some yb => tableRow "Year Built" (toString yb)
   | none => "") ++
  tableRow "Rebuild" (rebuildLabel rb) ++
  "</table>" ++
  ("<a href=\"/property/" ++ idEnc ++
    "\" style=\"display:inline-block;margin-top:4px;font-size:12px;color:#2563eb;text-decoration:none;font-weight:500;\">View details &rarr;</a>") ++
  "</div>"

/-! ## Specification-side banding -/

/-- The four presentation bands of the specification: green for scores at
least 70, yellow for at least 40, red below, neutral for null. -/
inductive ScoreBand where
  | green : ScoreBand
  | yellow : ScoreBand
  | red : ScoreBand
  | neutral : ScoreBand
deriving DecidableEq

/-- Band of a score value, as the specification words it. -/
def scoreBandSpec (score : Option ℚ) : ScoreBand :=
  match score with
  | none => .neutral
  | some s => if s ≥ 70 then .green else if s ≥ 40 then .yellow else .red

/-- Text colour class per band (`getScoreColor` side). -/
def textColorOfBand : ScoreBand → String
  | .green => "text-green-600"
  | .yellow => "text-yellow-600"
  | .red => "text-red-600"
  | .neutral => "text-muted-foreground"

/-- Badge background class per band (`getScoreBgColor` side). -/
def bgColorOfBand : ScoreBand → String
  | .green => "bg-green-100 text-green-800"
  | .yellow => "bg-yellow-100 text-yellow-800"
  | .red => "bg-red-100 text-red-800"
  | .neutral => "bg-muted"

/-- Popup badge background colour per band. -/
def badgeBgOfBand : ScoreBand → String
  | .green => "#dcfce7"
  | .yellow => "#fef9c3"
  | .red => "#fee2e2"
  | .neutral => "#e5e7eb"

/-- Popup badge foreground colour per band. -/
def badgeFgOfBand : ScoreBand → String
  | .green => "#166534"
  | .yellow => "#854d0e"
  | .red => "#991b1b"
  | .neutral => "#6b7280"

/-- Score bar fill class per band. -/
def barColorOfBand : ScoreBand → String
  | .green => "bg-green-500"
  | .yellow => "bg-yellow-500"
  | .red => "bg-red-500"
  | .neutral => "bg-muted"

/-- Score bar text class per band. -/
def barTextColorOfBand : ScoreBand → String
  | .green => "text-green-700"
  | .yellow => "text-yellow-700"
  | .red => "text-red-700"
  | .neutral => "text-muted-foreground"

/-! ## Concrete records used by counterexamples and witnesses -/

/-- A completed job with a completion timestamp. -/
def jobCompletedC1 : ScrapeJob :=
  { id := "job-1", source_id := "suumo", status := "completed",
    prefecture_code := some "13", municipality_code := none,
    listings_found := 12, listings_new := 3, listings_updated := 9,
    error_message := none, started_at := some "2025-01-01T11:00:00Z",
    completed_at := some "2025-01-01T12:00:00Z",
    created_at := some "2025-01-01T11:00:00Z" }

/-- A currently running job, newer than `jobCompletedC1`. -/
def jobRunningC1 : ScrapeJob :=
  { id := "job-2", source_id := "suumo", status := "running",
    prefecture_code := some "13", municipality_code := none,
    listings_found := 0, listings_new := 0, listings_updated := 0,
    error_message := none, started_at := some "2025-01-02T09:00:00Z",
    completed_at := none, created_at := some "2025-01-02T09:00:00Z" }

/-- A failed job whose error message is the empty string (non-null). -/
def jobEmptyError : ScrapeJob :=
  { id := "job-3", source_id := "suumo", status := "failed",
    prefecture_code := some "13", municipality_code := none,
    listings_found := 0, listings_new := 0, listings_updated := 0,
    error_message := some "", started_at := some "2025-03-01T00:00:00Z",
    completed_at := some "2025-03-01T00:01:00Z",
    created_at := some "2025-03-01T00:00:00Z" }

/-- A failed job with a non-empty error message. -/
def jobBoomError : ScrapeJob :=
  { id := "job-4", source_id := "suumo", status := "failed",
    prefecture_code := some "13", municipality_code := none,
    listings_found := 0, listings_new := 0, listings_updated := 0,
    error_message := some "AdapterError: region 99 unknown",
    started_at := some "2025-03-02T00:00:00Z",
    completed_at := some "2025-03-02T00:01:00Z",
    created_at := some "2025-03-02T00:00:00Z" }

/-- A completed job without any error message. -/
def jobNoError : ScrapeJob :=
  { id := "job-5", source_id := "suumo", status := "completed",
    prefecture_code := some "13", municipality_code := none,
    listings_found := 5, listings_new := 5, listings_updated := 0,
    error_message := none, started_at := some "2025-03-03T00:00:00Z",
    completed_at := some "2025-03-03T00:01:00Z",
    created_at := some "2025-03-03T00:00:00Z" }

/-- A disabled source. -/
def sourceDisabledC3 : ScrapeSource :=
  { id := "athome", display_name := "At Home", base_url := none,
    is_enabled := false, default_interval_hours := 24 }

/-! ## Claim theorems -/

/-- C2, counterexample: the Recent Jobs table has header columns for only
three of the four outcome counters — there is no Skipped column, so the
admin jobs table does not render each of the four counts. -/
theorem jobsTable_counters_counterexample :
    jobsTableHeaders = ["Source", "Status", "Prefecture", "Found", "New",
      "Updated", "Started", "Duration", "Error"]
    ∧ jobsTableHeaders.contains "Skipped" = false := by
  exact ⟨rfl, by decide⟩

/-- C2, amended: the frontend Job type carries three outcome counters
(found, new, updated) and the admin jobs table renders exactly these three
for every job (new and updated values carry a `+`/`~` mark when positive);
a skipped counter is neither carried nor rendered. -/
theorem jobsTable_counters_amended : ∀ j : ScrapeJob,
    jobCounterCells j =
      [toString j.listings_found,
       if 0 < j.listings_new then "+" ++ toString j.listings_new
       else toString j.listings_new,
       if 0 < j.listings_updated then "~" ++ toString j.listings_updated
       else toString j.listings_updated]
    ∧ "Found" ∈ jobsTableHeaders ∧ "New" ∈ jobsTableHeaders
    ∧ "Updated" ∈ jobsTableHeaders
    ∧ jobsTableHeaders.contains "Skipped" = false := by
  intro j
  exact ⟨rfl, by decide, by decide, by decide, by decide⟩

/-- C3: the Start Scrape click sends nothing when no source is selected;
otherwise it sends a body whose source id is the selected source, carrying
the prefecture code exactly when one is selected; and a source option is
disabled exactly when the source is not enabled. -/
theorem trigger_job_form :
    ∀ (selectedSource selectedPrefecture : String) (s : ScrapeSource),
    (selectedSource = "" →
      startScrapeClick selectedSource selectedPrefecture = none)
    ∧ (selectedSource ≠ "" → ∃ body,
        startScrapeClick selectedSource selectedPrefecture = some body
        ∧ body.source_id = selectedSource
        ∧ (selectedPrefecture ≠ "" →
            body.prefecture_code = some selectedPrefecture)
        ∧ (selectedPrefecture = "" → body.prefecture_code = none))
    ∧ (sourceOptionDisabled s = true ↔ s.is_enabled = false) := by
  intro src pref s
  refine ⟨fun h => by simp [startScrapeClick, h], fun h => ?_, ?_⟩
  · exact ⟨⟨src, if pref = "" then none else some pref⟩,
      by simp [startScrapeClick, h], rfl,
      fun hp => by simp [hp], fun hp => by simp [hp]⟩
  · cases hb : s.is_enabled <;> simp [sourceOptionDisabled, hb]

/-- C3, witness: concrete trigger interactions. -/
theorem trigger_job_form_witness :
    startScrapeClick "" "13" = none
    ∧ (∃ body, startScrapeClick "suumo" "13" = some body
        ∧ body.source_id = "suumo" ∧ body.prefecture_code = some "13")
    ∧ sourceOptionDisabled sourceDisabledC3 = true := by
  refine ⟨(trigger_job_form "" "13" sourceDisabledC3).1 rfl, ?_, ?_⟩
  · obtain ⟨b, h1, h2, h3, _⟩ :=
      (trigger_job_form "suumo" "13" sourceDisabledC3).2.1 (by decide)
    exact ⟨b, h1, h2, h3 (by decide)⟩
  · exact (trigger_job_form "suumo" "13" sourceDisabledC3).2.2.mpr rfl

/-- C4, counterexample: a status equal to an `Object.prototype` property
name, such as `toString`, finds the inherited member when the `styles`
object literal is indexed, so `??` does not fall back and the badge class
is the stringified inherited member, not the neutral style. -/
theorem job_status_badge_filter_counterexample :
    statusBadgeClass "toString" = BadgeClass.inheritedJunk "toString"
    ∧ (statusBadgeClass "toString" ==
        BadgeClass.style "bg-gray-100 text-gray-700") = false := by
  exact ⟨by decide, by decide⟩

/-- C4, amended: the status filter offers exactly the four job states
(besides the empty All-statuses value) and the badge styles of the four
states are pairwise distinct; a status string that is neither one of the
four nor a property name of `Object.prototype` falls back to the neutral
gray style, while an `Object.prototype` property name leaks the
stringified inherited member into the class string instead. -/
theorem job_status_badge_filter :
    statusFilterOptions = ["", "pending", "running", "completed", "failed"]
    ∧ statusFilterOptions.filter (fun v => v != "") =
        ["pending", "running", "completed", "failed"]
    ∧ (statusBadgeClass "pending" == statusBadgeClass "running") = false
    ∧ (statusBadgeClass "pending" == statusBadgeClass "completed") = false
    ∧ (statusBadgeClass "pending" == statusBadgeClass "failed") = false
    ∧ (statusBadgeClass "running" == statusBadgeClass "completed") = false
    ∧ (statusBadgeClass "running" == statusBadgeClass "failed") = false
    ∧ (statusBadgeClass "completed" == statusBadgeClass "failed") = false
    ∧ (∀ status : String,
        status ∉ ["pending", "running", "completed", "failed"] →
        protoProps.contains status = false →
        statusBadgeClass status =
          BadgeClass.style "bg-gray-100 text-gray-700")
    ∧ (∀ status : String, status ∈ protoProps →
        statusBadgeClass status = BadgeClass.inheritedJunk status) := by
  refine ⟨rfl, by decide, by decide, by decide, by decide, by decide,
    by decide, by decide, ?_, ?_⟩
  · intro status h hp
    simp only [List.mem_cons, List.not_mem_nil, or_false, not_or] at h
    obtain ⟨h1, h2, h3, h4⟩ := h
    have e1 : (status == "pending") = false := by simp [h1]
    have e2 : (status == "running") = false := by simp [h2]
    have e3 : (status == "completed") = false := by simp [h3]
    have e4 : (status == "failed") = false := by simp [h4]
    have hp2 : status ∉ protoProps := by simpa using hp
    simp [statusBadgeClass, statusStyles, List.lookup, e1, e2, e3, e4, hp2]
  · intro status h
    fin_cases h <;> rfl

/-- C4, witness: an unknown ordinary status gets the neutral style, while
an inherited property name does not. -/
theorem job_status_badge_filter_witness :
    statusBadgeClass "cancelled" =
      BadgeClass.style "bg-gray-100 text-gray-700"
    ∧ statusBadgeClass "valueOf" = BadgeClass.inheritedJunk "valueOf" := by
  refine ⟨job_status_badge_filter.2.2.2.2.2.2.2.2.1 "cancelled"
      (by decide) (by decide),
    job_status_badge_filter.2.2.2.2.2.2.2.2.2 "valueOf" (by decide)⟩

/-- C5: every job-history request carries `limit=50`, and carries the
status / source-id parameters exactly when the respective filter is
chosen. -/
theorem jobs_history_query : ∀ statusFilter sourceFilter : String,
    (jobsQueryParams statusFilter sourceFilter).lookup "limit" = some "50"
    ∧ (statusFilter ≠ "" →
        (jobsQueryParams statusFilter sourceFilter).lookup "status" =
          some statusFilter)
    ∧ (statusFilter = "" →
        (jobsQueryParams statusFilter sourceFilter).lookup "status" = none)
    ∧ (sourceFilter ≠ "" →
        (jobsQueryParams statusFilter sourceFilter).lookup "source_id" =
          some sourceFilter)
    ∧ (sourceFilter = "" →
        (jobsQueryParams statusFilter sourceFilter).lookup "source_id" =
          none) := by
  intro st src
  refine ⟨rfl, fun h => ?_, fun h => ?_, fun h => ?_, fun h => ?_⟩
  · simp only [jobsQueryParams, if_neg h]
    rfl
  · subst h
    by_cases h2 : src = ""
    · subst h2; rfl
    · simp only [jobsQueryParams, if_neg h2]
      rfl
  · by_cases h1 : st = ""
    · subst h1
      simp only [jobsQueryParams, if_neg h]
      rfl
    · simp only [jobsQueryParams, if_neg h1, if_neg h]
      rfl
  · subst h
    by_cases h1 : st = ""
    · subst h1; rfl
    · simp only [jobsQueryParams, if_neg h1]
      rfl

/-- C5, witness: concrete filter combinations. -/
theorem jobs_history_query_witness :
    (jobsQueryParams "completed" "suumo").lookup "limit" = some "50"
    ∧ (jobsQueryParams "completed" "suumo").lookup "status" =
        some "completed"
    ∧ (jobsQueryParams "completed" "suumo").lookup "source_id" =
        some "suumo"
    ∧ (jobsQueryParams "" "").lookup "status" = none := by
  refine ⟨(jobs_history_query "completed" "suumo").1,
    (jobs_history_query "completed" "suumo").2.1 (by decide),
    (jobs_history_query "completed" "suumo").2.2.2.1 (by decide),
    (jobs_history_query "" "").2.2.1 rfl⟩

/-- C6, counterexample: a job whose error message is the empty string has a
non-null error message, yet the error cell shows the dash. -/
theorem error_cell_counterexample :
    jobEmptyError.error_message = some ""
    ∧ errorCellText jobEmptyError = "-" := by
  exact ⟨rfl, rfl⟩

/-- C6, amended: the cell's title attribute carries any present error
message verbatim; the cell text shows the message when it is non-empty and
a dash when the message is absent or empty. -/
theorem error_cell_amended : ∀ j : ScrapeJob,
    (∀ m, j.error_message = some m → errorCellTitle j = some m)
    ∧ ((j.error_message = none ∨ j.error_message = some "") →
        errorCellText j = "-")
    ∧ (∀ m, j.error_message = some m → m ≠ "" → errorCellText j = m) := by
  intro j
  refine ⟨fun m hm => ?_, fun h => ?_, fun m hm hne => ?_⟩
  · simpa [errorCellTitle] using hm
  · rcases h with h | h <;> simp [errorCellText, h]
  · simp [errorCellText, hm, hne]

/-- C6, witness: concrete jobs with and without an error message. -/
theorem error_cell_amended_witness :
    errorCellTitle jobBoomError = some "AdapterError: region 99 unknown"
    ∧ errorCellText jobBoomError = "AdapterError: region 99 unknown"
    ∧ errorCellText jobNoError = "-" := by
  refine ⟨(error_cell_amended jobBoomError).1 _ rfl,
    (error_cell_amended jobBoomError).2.2 _ rfl (by decide),
    (error_cell_amended jobNoError).2.1 (Or.inl rfl)⟩

/-- C7: the scheduler start request always carries `interval_hours` equal
to the configured interval, and the stop request carries no parameters. -/
theorem scheduler_control_requests : ∀ intervalHours : Nat,
    (startSchedulerRequest intervalHours).path = "/scraping/scheduler/start"
    ∧ (startSchedulerRequest intervalHours).query.lookup "interval_hours" =
        some (toString intervalHours)
    ∧ stopSchedulerRequest.path = "/scraping/scheduler/stop"
    ∧ stopSchedulerRequest.query = [] := by
  intro intervalHours
  exact ⟨rfl, rfl, rfl, rfl⟩

/-- C1, counterexample: with a running job and a completed job among the
recent jobs, the Last Scrape line shows Running now, not the completion
timestamp of the most recent completed job. -/
theorem dashboard_lastScrape_counterexample :
    lastCompletedJob [jobRunningC1, jobCompletedC1] = some jobCompletedC1
    ∧ jobCompletedC1.completed_at = some "2025-01-01T12:00:00Z"
    ∧ lastScrapeText [jobRunningC1, jobCompletedC1] =
        LastScrapeText.runningNow := by
  exact ⟨by decide, rfl, by decide⟩

/-- C1, amended: over the (up to five) jobs returned by the dashboard's
recent-jobs query, the display reports whether one of them is running;
when one is, Last Scrape shows Running now; when none is, it shows the
relative-time rendering of the completion timestamp of the first completed
job in the newest-first list, or Never when there is none; and the
Database line shows the overall property count. -/
theorem dashboard_health_amended :
    ∀ (recentJobs : List ScrapeJob) (total : Nat),
    (hasRunningJobs recentJobs = true ↔
      ∃ j ∈ recentJobs, j.status = "running")
    ∧ (hasRunningJobs recentJobs = true →
        lastScrapeText recentJobs = LastScrapeText.runningNow)
    ∧ (∀ j ts, hasRunningJobs recentJobs = false →
        lastCompletedJob recentJobs = some j → j.completed_at = some ts →
        ts ≠ "" → lastScrapeText recentJobs = LastScrapeText.ago ts)
    ∧ (hasRunningJobs recentJobs = false →
        lastCompletedJob recentJobs = none →
        lastScrapeText recentJobs = LastScrapeText.never)
    ∧ totalPropertiesValue (some total) = toString total := by
  intro jobs total
  refine ⟨?_, fun h => ?_, fun j ts h h1 h2 h3 => ?_, fun h h1 => ?_, rfl⟩
  · simp [hasRunningJobs, runningSources, List.length_pos,
      List.filter_eq_nil_iff, not_forall]
  · simp [lastScrapeText, h]
  · simp [lastScrapeText, h, h1, h2, h3]
  · simp [lastScrapeText, h, h1]

/-- C1, witness: a single completed job yields its relative completion
time. -/
theorem dashboard_health_amended_witness :
    lastScrapeText [jobCompletedC1] =
      LastScrapeText.ago "2025-01-01T12:00:00Z"
    ∧ totalPropertiesValue (some 42) = toString 42 := by
  refine ⟨(dashboard_health_amended [jobCompletedC1] 42).2.2.1 jobCompletedC1
      "2025-01-01T12:00:00Z" (by decide) (by decide) rfl (by decide),
    (dashboard_health_amended [jobCompletedC1] 42).2.2.2.2⟩

/-- C9: all three score-banding implementations factor through the one
specification band — green for scores at least 70, yellow for at least 40,
red below 40, neutral for null — with a fixed rendering per band. -/
theorem score_band_agreement : ∀ score : Option ℚ,
    getScoreColor score = textColorOfBand (scoreBandSpec score)
    ∧ getScoreBgColor score = bgColorOfBand (scoreBandSpec score)
    ∧ scoreBarColor score = barColorOfBand (scoreBandSpec score)
    ∧ scoreBarTextColor score = barTextColorOfBand (scoreBandSpec score)
    ∧ scoreBadge score =
        (match score with
         | none => badgeNeutralHtml
         | some q =>
           badgeSpanHtml (badgeBgOfBand (scoreBandSpec score))
             (badgeFgOfBand (scoreBandSpec score)) (jsNumRepr q)) := by
  intro score
  rcases score with _ | q
  · exact ⟨rfl, rfl, rfl, rfl, rfl⟩
  · by_cases h70 : (70 : ℚ) ≤ q <;> by_cases h40 : (40 : ℚ) ≤ q <;>
      refine ⟨?_, ?_, ?_, ?_, ?_⟩ <;>
      simp [getScoreColor, getScoreBgColor, scoreBarColor, scoreBarTextColor,
        scoreBadge, scoreBandSpec, textColorOfBand, bgColorOfBand,
        barColorOfBand, barTextColorOfBand, badgeBgOfBand, badgeFgOfBand,
        ge_iff_le, h70, h40]

/-- C10, counterexample: at 15,000,000 yen the two formatters disagree —
the popup groups the integer man value with a comma, the library does
not. -/
theorem man_yen_counterexample :
    formatPrice (some 15000000) = "1,500万円"
    ∧ formatManYen 15000000 = "1500万円"
    ∧ (formatPrice (some 15000000) == formatManYen 15000000) = false := by
  exact ⟨by decide, by decide, by decide⟩

/-- Grouping is the identity below 1000. -/
lemma jsNatGrouped_of_lt (n : Nat) (h : n < 1000) :
    jsNatGrouped n = jsNatRepr n := by
  cases n with
  | zero => rfl
  | succ m =>
    show jsNatGroupedAux (m + 1) (m + 1) = jsNatRepr (m + 1)
    simp [jsNatGroupedAux, h]

/-- C10, amended: the two formatters produce the same man-yen string for
every yen amount that is a multiple of 1000 and below 10,000,000 (i.e.
whose man value has at most one decimal digit and needs no grouping
separator); above that the popup inserts grouping commas the library
omits. -/
theorem man_yen_amended : ∀ amount : Nat, amount % 1000 = 0 →
    amount < 10000000 → formatPrice (some amount) = formatManYen amount := by
  intro a h1k hlt
  by_cases h : a % 10000 = 0
  · simp only [formatPrice, formatManYen, if_pos h]
    rw [jsNatGrouped_of_lt _ (by omega)]
  · simp only [formatPrice, formatManYen, if_neg h]
    have hc : ¬((a + 500) / 1000 % 10 = 0) := by omega
    rw [if_neg hc, jsNatGrouped_of_lt _ (by omega)]

/-- C10, witness: 1,230,000 yen (123万円) renders identically. -/
theorem man_yen_amended_witness :
    1230000 % 1000 = 0 ∧ 1230000 < 10000000
    ∧ formatPrice (some 1230000) = formatManYen 1230000 :=
  ⟨by decide, by decide, man_yen_amended 1230000 (by decide) (by decide)⟩

/-! ## Escaping lemmas for the popup -/

/-- Single-character global replace distributes over append. -/
lemma replaceAllChar_append (pat : Char) (rep : List Char)
    (l₁ l₂ : List Char) :
    replaceAllChar pat rep (l₁ ++ l₂) =
      replaceAllChar pat rep l₁ ++ replaceAllChar pat rep l₂ := by
  induction l₁ with
  | nil => rfl
  | cons c cs ih => by_cases hc : c = pat <;> simp [replaceAllChar, hc, ih]

/-- The chained replaces distribute over append. -/
lemma escapeHtmlData_append (l₁ l₂ : List Char) :
    escapeHtmlData (l₁ ++ l₂) =
      escapeHtmlData l₁ ++ escapeHtmlData l₂ := by
  simp [escapeHtmlData, replaceAllChar_append]

/-- On a single character the chained replaces agree with the charwise
entity map: the five entities introduced by earlier replaces contain none
of the later patterns, so no double replacement happens. -/
lemma escapeHtmlData_single (c : Char) :
    escapeHtmlData [c] = htmlEscapeChar c := by
  by_cases h1 : c = '&'
  · subst h1; decide
  · by_cases h2 : c = '<'
    · subst h2; decide
    · by_cases h3 : c = '>'
      · subst h3; decide
      · by_cases h4 : c = quoteChar
        · subst h4; decide
        · by_cases h5 : c = aposChar
          · subst h5; decide
          · simp [escapeHtmlData, replaceAllChar, htmlEscapeChar,
              h1, h2, h3, h4, h5]

/-- The chained global replaces of `escapeHtml` equal the charwise entity
map. -/
lemma escapeHtmlData_eq (l : List Char) :
    escapeHtmlData l = l.flatMap htmlEscapeChar := by
  induction l with
  | nil => rfl
  | cons c cs ih =>
    calc escapeHtmlData (c :: cs)
        = escapeHtmlData ([c] ++ cs) := rfl
      _ = escapeHtmlData [c] ++ escapeHtmlData cs :=
          escapeHtmlData_append _ _
      _ = htmlEscapeChar c ++ cs.flatMap htmlEscapeChar := by
          rw [escapeHtmlData_single, ih]
      _ = (c :: cs).flatMap htmlEscapeChar := by
          simp [List.flatMap_cons]

/-- `escapeHtml` on strings equals the charwise entity map. -/
lemma escapeHtml_eq_charwise (s : String) :
    escapeHtml s = escapeHtmlCharwise s := by
  simp [escapeHtml, escapeHtmlCharwise, escapeHtmlData_eq]

/-- C8: the popup markup equals the raw template applied to the
character-by-character HTML-escaped address and floor plan and the
URI-encoded property id — listing text never reaches the markup raw. -/
theorem popup_sanitises : ∀ p : PopupProperties,
    createPopupHTML p =
      popupAssembled (escapeHtmlCharwise p.address) p.price p.score
        (p.floor_plan.bind fun fp =>
          if fp = "" then none else some (escapeHtmlCharwise fp))
        p.land_area p.year_built p.rebuild_possible
        (encodeURIComponent p.id) := by
  intro p
  obtain ⟨pid, pprice, paddr, pscore, pfp, pla, pyb, prb⟩ := p
  simp only [createPopupHTML, popupAssembled, escapeHtml_eq_charwise]
  rcases pfp with _ | fp
  · rfl
  · by_cases hfp : fp = "" <;>
      simp [hfp, escapeHtml_eq_charwise]

end JapanReit
